import Mathlib

/-!
Verification of the PDF utility bot (session store, transform engine,
validators and conversation handlers) against its specification.

The Python sources are shallowly embedded: dictionaries become functions
from keys to optional values, the mutable session stores become explicit
state passing, timestamps become natural numbers (seconds), and raised
exceptions become explicit error values.  Each definition mirrors one
Python function of the repository and is named after it.
-/

/-- Values stored in a session's `data` dictionary: strings
(`watermark_text`, `position`, `file_path`), lists of file paths
(`files`), and numbers (`opacity`). -/
inductive Value where
  | str (s : String)
  | paths (l : List String)
  | num (q : ℚ)
deriving DecidableEq

/-- A Python dictionary with string keys, embedded extensionally as a
function from keys to optional values. -/
def Dict : Type := String → Option Value

/-- The empty dictionary `{}`. -/
def Dict.empty : Dict := fun _ => none

/-- Key override: the value of `{**a, **b}` at one key, given the values
of `a` and `b` there — `b` wins when it has the key. -/
def override (old new : Option Value) : Option Value :=
  match new with
  | some v => some v
  | none => old

/-- Shallow dictionary merge `{**a, **b}`: keys of `b` overwrite keys of
`a`, keys present only in one side are kept. -/
def dictMerge (a b : Dict) : Dict := fun k => override (a k) (b k)

/-- Singleton update `d[k] = v` of a dictionary. -/
def dictSet (d : Dict) (k : String) (v : Value) : Dict :=
  fun k' => if k' = k then some v else d k'

namespace BotState

def WAITING : String := "waiting"
def UPLOADING_MERGE : String := "uploading_merge"
def UPLOADING_RENAME : String := "uploading_rename"
def UPLOADING_WATERMARK : String := "uploading_watermark"
def WAITING_FILENAME : String := "waiting_filename"
def WAITING_WATERMARK_TEXT : String := "waiting_watermark_text"
def WAITING_WATERMARK_POSITION : String := "waiting_watermark_position"
def WAITING_WATERMARK_OPACITY : String := "waiting_watermark_opacity"

end BotState

namespace SessionManager

/-- A session document of the MongoDB-backed `SessionManager`
(`session_manager.py`, `create_session`): chat id, state tag, data
dictionary, and the three timestamps. -/
structure Session where
  chat_id : Int
  state : String
  data : Dict
  created_at : Nat
  updated_at : Nat
  expires_at : Nat

/-- The `user_sessions` collection, keyed by `chat_id` (the collection
has a unique index on `chat_id`).  We model the connected store; when
the connection failed every method of the Python class is a silent
no-op, which carries no information about the claims. -/
def Store : Type := Int → Option Session

/-- The empty collection. -/
def Store.empty : Store := fun _ => none

/-- `SessionManager.create_session`: builds a fresh session document and
upserts it (replaces any existing document for the chat id).  `now` is
the value of `datetime.utcnow()`; the TTL is one hour (3600 s). -/
def create_session (st : Store) (chat_id : Int) (state : String)
    (data : Option Dict) (now : Nat) : Store :=
  fun i =>
    if i = chat_id then
      some { chat_id := chat_id, state := state, data := data.getD Dict.empty,
             created_at := now, updated_at := now, expires_at := now + 3600 }
    else st i

/-- `SessionManager.get_session`: `find_one({"chat_id": chat_id})` —
returns the stored document as is (no expiry check is performed). -/
def get_session (st : Store) (chat_id : Int) : Option Session :=
  st chat_id

/-- `SessionManager.update_session`: when a document for the chat id
exists, `$set` refreshes `updated_at` and `expires_at`, replaces
`state` only when one is given, and replaces `data` with the shallow
merge of the existing data and the patch when a patch is given.  When
no document matches, `update_one` without upsert changes nothing. -/
def update_session (st : Store) (chat_id : Int) (state : Option String)
    (data : Option Dict) (now : Nat) : Store :=
  match st chat_id with
  | none => st
  | some s =>
    let newState := state.getD s.state
    let newData :=
      match data with
      | none => s.data
      | some d => dictMerge s.data d
    fun i =>
      if i = chat_id then
        some { s with state := newState, data := newData,
                      updated_at := now, expires_at := now + 3600 }
      else st i

/-- `SessionManager.clear_session`: `delete_one({"chat_id": chat_id})`. -/
def clear_session (st : Store) (chat_id : Int) : Store :=
  fun i => if i = chat_id then none else st i

/-- `SessionManager.cleanup_expired_sessions`:
`delete_many({"expires_at": {"$lt": now}})`. -/
def cleanup_expired_sessions (st : Store) (now : Nat) : Store :=
  fun i =>
    match st i with
    | none => none
    | some s => if s.expires_at < now then none else some s

/-- One `update_session` call: optional state override, the data patch
it supplies, and the time of the call. -/
def run_updates (st : Store) (chat_id : Int) :
    List (Option String × Dict × Nat) → Store
  | [] => st
  | c :: cs => run_updates (update_session st chat_id c.1 (some c.2.1) c.2.2) chat_id cs

end SessionManager

namespace MemorySessionManager

/-- A session of the in-memory fallback `MemorySessionManager`
(`session_manager.py`, `create_session`): note it records no
`expires_at` field. -/
structure Session where
  chat_id : Int
  state : String
  data : Dict
  created_at : Nat
  updated_at : Nat

/-- The `self.sessions` python dictionary, keyed by chat id. -/
def Store : Type := Int → Option Session

/-- The empty dictionary of sessions. -/
def Store.empty : Store := fun _ => none

/-- `MemorySessionManager.create_session`. -/
def create_session (st : Store) (chat_id : Int) (state : String)
    (data : Option Dict) (now : Nat) : Store :=
  fun i =>
    if i = chat_id then
      some { chat_id := chat_id, state := state, data := data.getD Dict.empty,
             created_at := now, updated_at := now }
    else st i

/-- `MemorySessionManager.get_session`: `self.sessions.get(chat_id)`. -/
def get_session (st : Store) (chat_id : Int) : Option Session :=
  st chat_id

/-- `MemorySessionManager.update_session`: only acts when the chat id is
present; replaces `state` when one is given, merges the data patch into
the existing data, and refreshes `updated_at`. -/
def update_session (st : Store) (chat_id : Int) (state : Option String)
    (data : Option Dict) (now : Nat) : Store :=
  match st chat_id with
  | none => st
  | some s =>
    let s1 := match state with
      | none => s
      | some v => { s with state := v }
    let s2 := match data with
      | none => s1
      | some d => { s1 with data := dictMerge s1.data d }
    fun i => if i = chat_id then some { s2 with updated_at := now } else st i

/-- `MemorySessionManager.clear_session`: `self.sessions.pop(chat_id, None)`. -/
def clear_session (st : Store) (chat_id : Int) : Store :=
  fun i => if i = chat_id then none else st i

/-- One `update_session` call: optional state override, the data patch
it supplies, and the time of the call. -/
def run_updates (st : Store) (chat_id : Int) :
    List (Option String × Dict × Nat) → Store
  | [] => st
  | c :: cs => run_updates (update_session st chat_id c.1 (some c.2.1) c.2.2) chat_id cs

end MemorySessionManager

/-- Left fold of shallow merges of a list of patches into an initial
data dictionary — the reference semantics the specification states for
a sequence of upserts. -/
def foldMerge (d0 : Dict) (ps : List Dict) : Dict :=
  ps.foldl dictMerge d0

/-- The value the last patch mentioning a key assigns to it, if any
patch mentions it (later patches win). -/
def lastWrite : List Dict → String → Option Value
  | [], _ => none
  | p :: ps, k => override (p k) (lastWrite ps k)

namespace PDFProcessor

/-- The Python exceptions `merge_pdfs` can raise: the `ValueError`
raised before the try block when fewer than two sources are given, and
the generic `Exception("Merge failed: ...")` the except clause wraps
around anything raised inside the try block (including the
`FileNotFoundError` for a missing source). -/
inductive PyError where
  | valueError (msg : String)
  | exception (msg : String)
deriving DecidableEq

/-- The on-disk working directory as seen by the merge and rename
operations: each present path holds a readable PDF, modelled by its
list of pages (pages are opaque identifiers). -/
def FS : Type := String → Option (List Nat)

/-- First input path for which `os.path.exists` is false, scanning in
list order, as the loop in `merge_pdfs` does. -/
def findMissing (fs : FS) : List String → Option String
  | [] => none
  | p :: ps =>
    match fs p with
    | none => some p
    | some _ => findMissing fs ps

/-- `PDFProcessor.merge_pdfs`: raises `ValueError` when fewer than two
input paths are given; otherwise appends each input in order, raising a
wrapped `Exception("Merge failed: File not found: ...")` at the first
missing path, and only after all inputs appended writes the
concatenation of their pages to the output path.  The returned file
system is the disk state when the call finishes (unchanged on every
error, since the write is the only mutation). -/
def merge_pdfs (fs : FS) (input_paths : List String) (output_path : String) :
    Except PyError Unit × FS :=
  if input_paths.length < 2 then
    (Except.error (PyError.valueError "Need at least 2 PDFs to merge"), fs)
  else
    match findMissing fs input_paths with
    | some p =>
      (Except.error (PyError.exception ("Merge failed: File not found: " ++ p)), fs)
    | none =>
      let merged := (input_paths.map (fun p => (fs p).getD [])).flatten
      (Except.ok (), fun q => if q = output_path then some merged else fs q)

/-- The font-size selection block of `PDFProcessor._create_watermark_pdf`:
a step function of the watermark text's length. -/
def watermark_font_size (text : String) : Nat :=
  if text.length ≤ 10 then 48
  else if text.length ≤ 20 then 36
  else if text.length ≤ 30 then 24
  else 18

/-- A stored file as the validators see it: whether its bytes begin
with the `%PDF-` signature, and the PDF reader's result on it (the page
count when it parses, nothing when the reader fails).  The reader is
the external PDF library; §4.1 of the specification gives its contract. -/
structure RawFile where
  startsWithSig : Bool
  parsed : Option Nat
deriving DecidableEq

/-- The on-disk directory as seen by the validity checks. -/
def RawFS : Type := String → Option RawFile

/-- `PDFProcessor.validate_pdf`: opens the file, builds a reader and
returns whether it has more than zero pages; every failure (missing
file, reader error) is caught and returns false, so the function is
total. -/
def validate_pdf (fs : RawFS) (file_path : String) : Bool :=
  match fs file_path with
  | none => false
  | some c =>
    match c.parsed with
    | none => false
    | some n => decide (0 < n)

end PDFProcessor

/-- `MAX_FILE_SIZE = 20 * 1024 * 1024` from `bot.py` (the same constant
appears in the `bot (12).py` variant). -/
def MAX_FILE_SIZE : Nat := 20 * 1024 * 1024

namespace FileValidator

/-- `FileValidator.is_valid_size`: the size is acceptable when it is at
most `self.max_size` (the bound is inclusive). -/
def is_valid_size (max_size file_size : Nat) : Bool :=
  decide (file_size ≤ max_size)

/-- `FileValidator.validate_pdf_structure`: reads the first five bytes
and compares them with the `%PDF-` signature; every failure (missing
file) is caught and returns false. -/
def validate_pdf_structure (fs : PDFProcessor.RawFS) (file_path : String) : Bool :=
  match fs file_path with
  | none => false
  | some c => c.startsWithSig

end FileValidator

/-- All characters of the list are decimal digits. -/
def allDigits (l : List Char) : Bool :=
  l.all Char.isDigit

/-- Numeric value of a list of decimal digits, most significant first. -/
def digitsVal (l : List Char) : Nat :=
  l.foldl (fun acc c => acc * 10 + (c.toNat - 48)) 0

/-- Split a character list at its first dot, when there is one. -/
def splitAtDot : List Char → List Char × Option (List Char)
  | [] => ([], none)
  | c :: cs =>
    if c = '.' then ([], some cs)
    else
      let r := splitAtDot cs
      (c :: r.1, r.2)

/-- Model of Python `float()` restricted to plain decimal literals: an
optional sign followed by digits with at most one dot (at least one
digit overall).  The parsed value is kept as an exact rational; every
other string raises `ValueError`, modelled as `none`. -/
def pyFloat (s : String) : Option ℚ :=
  let (neg, body) :=
    match s.data with
    | c :: cs =>
      if c = '-' then (true, cs)
      else if c = '+' then (false, cs)
      else (false, s.data)
    | [] => (false, ([] : List Char))
  let mag : Option ℚ :=
    match splitAtDot body with
    | (ip, none) =>
      if allDigits ip ∧ ip ≠ [] then some (mkRat (digitsVal ip) 1) else none
    | (ip, some fp) =>
      if allDigits ip ∧ allDigits fp ∧ (ip ≠ [] ∨ fp ≠ []) then
        some (mkRat (digitsVal ip * 10 ^ fp.length + digitsVal fp) (10 ^ fp.length))
      else none
  match mag with
  | none => none
  | some v => some (if neg then -v else v)

namespace TextValidator

/-- `TextValidator.is_valid_opacity`: parses the string with `float()`
(`ValueError` gives `None`), returns the parsed value when
`0.1 <= opacity <= 1.0` and `None` otherwise. -/
def is_valid_opacity (value : String) : Option ℚ :=
  match pyFloat value with
  | none => none
  | some opacity =>
    if mkRat 1 10 ≤ opacity ∧ opacity ≤ 1 then some opacity else none

end TextValidator

/-- Python string slicing `s[:n]`: the first `n` characters (code
points) of the string. -/
def pySlice (s : String) (n : Nat) : String :=
  String.mk (s.data.take n)

namespace Bot

/-- `cancel_operation` from `bot.py`: handles `/cancel` by setting the
session state back to waiting through `update_session` (no data patch,
no deletion). -/
def cancel_operation (st : SessionManager.Store) (chat_id : Int) (now : Nat) :
    SessionManager.Store :=
  SessionManager.update_session st chat_id (some BotState.WAITING) none now

/-- The size guard of `handle_document` in `bot.py`: the upload is
rejected when `message.document.file_size` is truthy and strictly
greater than `MAX_FILE_SIZE`.  `none` models a missing size field. -/
def size_rejected (file_size : Option Nat) : Bool :=
  match file_size with
  | none => false
  | some n => decide (n ≠ 0) && decide (MAX_FILE_SIZE < n)

/-- `handle_watermark_text` from `bot.py`: called with the stripped
message text and the session fetched for the chat id; empty text is
refused with a prompt, otherwise `data["watermark_text"] = text[:100]`
is set on the session's data and merged back via `update_session`. -/
def handle_watermark_text (st : SessionManager.Store) (chat_id : Int)
    (text : String) (session : SessionManager.Session) (now : Nat) :
    SessionManager.Store :=
  if text = "" then st
  else
    let data := dictSet session.data "watermark_text" (Value.str (pySlice text 100))
    SessionManager.update_session st chat_id none (some data) now

end Bot

namespace BotV12

/-- `cancel_operation` from the `bot (12).py` variant: handles `/cancel`
by deleting the session record with `clear_session`. -/
def cancel_operation (st : SessionManager.Store) (chat_id : Int) :
    SessionManager.Store :=
  SessionManager.clear_session st chat_id

end BotV12

/-! Concrete example inputs used to exercise the theorems below. -/

/-- A data patch writing key `a`. -/
def patchA : Dict := dictSet Dict.empty "a" (Value.str "1")

/-- A data patch overwriting key `a` and adding key `b`. -/
def patchAB : Dict := dictSet (dictSet Dict.empty "a" (Value.str "2")) "b" (Value.str "3")

/-- An in-memory session holding an empty file list. -/
def memSession0 : MemorySessionManager.Session :=
  { chat_id := 7, state := BotState.UPLOADING_MERGE,
    data := dictSet Dict.empty "files" (Value.paths []),
    created_at := 0, updated_at := 0 }

/-- An in-memory store holding `memSession0` under chat id 7. -/
def memStore0 : MemorySessionManager.Store :=
  fun i => if i = 7 then some memSession0 else none

/-- A MongoDB-backed session holding an empty file list. -/
def mongoSession0 : SessionManager.Session :=
  { chat_id := 7, state := BotState.UPLOADING_MERGE,
    data := dictSet Dict.empty "files" (Value.paths []),
    created_at := 0, updated_at := 0, expires_at := 3600 }

/-- A MongoDB-backed store holding `mongoSession0` under chat id 7. -/
def mongoStore0 : SessionManager.Store :=
  fun i => if i = 7 then some mongoSession0 else none

/-- A sequence of two `update_session` calls, the second overwriting
key `a` and adding key `b`. -/
def callsAB : List (Option String × Dict × Nat) :=
  [(none, patchA, 1), (some BotState.WAITING, patchAB, 2)]

/-- A session whose `expires_at` (3600) has already passed at time 4000. -/
def expiredSession : SessionManager.Session :=
  { chat_id := 1, state := BotState.WAITING, data := Dict.empty,
    created_at := 0, updated_at := 0, expires_at := 3600 }

/-- A store holding only `expiredSession` under chat id 1. -/
def expiredStore : SessionManager.Store :=
  fun i => if i = 1 then some expiredSession else none

/-- A working directory holding a single two-page PDF at `a.pdf`;
`b.pdf` does not exist. -/
def fsA : PDFProcessor.FS :=
  fun p => if p = "a.pdf" then some [0, 1] else none

/-- A merge session that has accumulated one uploaded artifact. -/
def mergingSession : SessionManager.Session :=
  { chat_id := 1, state := BotState.UPLOADING_MERGE,
    data := dictSet Dict.empty "files" (Value.paths ["f1.pdf"]),
    created_at := 0, updated_at := 0, expires_at := 3600 }

/-- A store holding only `mergingSession` under chat id 1. -/
def mergingStore : SessionManager.Store :=
  fun i => if i = 1 then some mergingSession else none

/-- A directory holding one well-formed three-page PDF at `doc.pdf`. -/
def goodRawFS : PDFProcessor.RawFS :=
  fun q => if q = "doc.pdf" then some { startsWithSig := true, parsed := some 3 } else none

/-- A watermark session waiting for its text, holding the uploaded
file's path. -/
def wmSession : SessionManager.Session :=
  { chat_id := 9, state := BotState.WAITING_WATERMARK_TEXT,
    data := dictSet Dict.empty "file_path" (Value.str "in.pdf"),
    created_at := 0, updated_at := 0, expires_at := 3600 }

/-- A store holding only `wmSession` under chat id 9. -/
def wmStore : SessionManager.Store :=
  fun i => if i = 9 then some wmSession else none

/-! Helper lemmas about the dictionary model. -/

theorem override_none (a : Option Value) : override a none = a := rfl

theorem override_assoc (a b c : Option Value) :
    override (override a b) c = override a (override b c) := by
  cases c <;> cases b <;> rfl

theorem dictMerge_apply (a b : Dict) (k : String) :
    dictMerge a b k = override (a k) (b k) := rfl

theorem foldMerge_lastWrite (ps : List Dict) (d0 : Dict) (k : String) :
    foldMerge d0 ps k = override (d0 k) (lastWrite ps k) := by
  induction ps generalizing d0 with
  | nil => rfl
  | cons p ps ih =>
    show foldMerge (dictMerge d0 p) ps k = _
    rw [ih, dictMerge_apply, override_assoc]
    rfl

/-! Helper lemmas about the two session managers' update operation. -/

theorem SessionManager.update_session_get (st : Store) (chat_id : Int)
    (s : Session) (ov : Option String) (p : Dict) (now : Nat)
    (h : st chat_id = some s) :
    (update_session st chat_id ov (some p) now) chat_id =
      some { chat_id := s.chat_id, state := ov.getD s.state,
             data := dictMerge s.data p, created_at := s.created_at,
             updated_at := now, expires_at := now + 3600 } := by
  unfold update_session
  rw [h]
  simp

theorem MemorySessionManager.mem_update_session_get (st : Store) (chat_id : Int)
    (s : Session) (ov : Option String) (p : Dict) (now : Nat)
    (h : st chat_id = some s) :
    (update_session st chat_id ov (some p) now) chat_id =
      some { chat_id := s.chat_id, state := ov.getD s.state,
             data := dictMerge s.data p, created_at := s.created_at,
             updated_at := now } := by
  unfold update_session
  rw [h]
  cases ov <;> simp

theorem SessionManager.run_updates_get (chat_id : Int)
    (calls : List (Option String × Dict × Nat)) :
    ∀ (st : Store) (s : Session), st chat_id = some s →
    ∃ s', (run_updates st chat_id calls) chat_id = some s' ∧
      s'.data = foldMerge s.data (calls.map (fun c => c.2.1)) := by
  induction calls with
  | nil => exact fun st s h => ⟨s, h, rfl⟩
  | cons c cs ih =>
    intro st s h
    have h1 := update_session_get st chat_id s c.1 c.2.1 c.2.2 h
    obtain ⟨s', hg, hd⟩ := ih _ _ h1
    exact ⟨s', hg, hd⟩

theorem MemorySessionManager.mem_run_updates_get (chat_id : Int)
    (calls : List (Option String × Dict × Nat)) :
    ∀ (st : Store) (s : Session), st chat_id = some s →
    ∃ s', (run_updates st chat_id calls) chat_id = some s' ∧
      s'.data = foldMerge s.data (calls.map (fun c => c.2.1)) := by
  induction calls with
  | nil => exact fun st s h => ⟨s, h, rfl⟩
  | cons c cs ih =>
    intro st s h
    have h1 := mem_update_session_get st chat_id s c.1 c.2.1 c.2.2 h
    obtain ⟨s', hg, hd⟩ := ih _ _ h1
    exact ⟨s', hg, hd⟩

theorem SessionManager.update_session_get_nodata (st : Store) (chat_id : Int)
    (s : Session) (ov : Option String) (now : Nat) (h : st chat_id = some s) :
    (update_session st chat_id ov none now) chat_id =
      some { chat_id := s.chat_id, state := ov.getD s.state, data := s.data,
             created_at := s.created_at, updated_at := now,
             expires_at := now + 3600 } := by
  unfold update_session
  rw [h]
  simp

theorem MemorySessionManager.mem_update_session_get_nodata (st : Store) (chat_id : Int)
    (s : Session) (ov : Option String) (now : Nat) (h : st chat_id = some s) :
    (update_session st chat_id ov none now) chat_id =
      some { chat_id := s.chat_id, state := ov.getD s.state, data := s.data,
             created_at := s.created_at, updated_at := now } := by
  unfold update_session
  rw [h]
  cases ov <;> simp

/-- Claim C1: for every sequence of session-update calls on a single
chat id, each supplying a data patch, the final session data equals the
left fold of shallow merges of the patches in call order, and per key
the final value is the last patch writing that key, falling back to the
initial value — last-writer-wins, no commutativity assumed.  Holds for
both the MongoDB-backed manager and the in-memory fallback. -/
theorem update_session_fold_merge (chat_id : Int)
    (calls : List (Option String × Dict × Nat)) :
    (∀ (st : SessionManager.Store) (s : SessionManager.Session),
      SessionManager.get_session st chat_id = some s →
      ∃ s', SessionManager.get_session
              (SessionManager.run_updates st chat_id calls) chat_id = some s' ∧
        s'.data = foldMerge s.data (calls.map (fun c => c.2.1)) ∧
        ∀ k, s'.data k =
          override (s.data k) (lastWrite (calls.map (fun c => c.2.1)) k)) ∧
    (∀ (st : MemorySessionManager.Store) (s : MemorySessionManager.Session),
      MemorySessionManager.get_session st chat_id = some s →
      ∃ s', MemorySessionManager.get_session
              (MemorySessionManager.run_updates st chat_id calls) chat_id = some s' ∧
        s'.data = foldMerge s.data (calls.map (fun c => c.2.1)) ∧
        ∀ k, s'.data k =
          override (s.data k) (lastWrite (calls.map (fun c => c.2.1)) k)) := by
  constructor
  · intro st s h
    obtain ⟨s', hg, hd⟩ := SessionManager.run_updates_get chat_id calls st s h
    refine ⟨s', hg, hd, fun k => ?_⟩
    rw [hd, foldMerge_lastWrite]
  · intro st s h
    obtain ⟨s', hg, hd⟩ := MemorySessionManager.mem_run_updates_get chat_id calls st s h
    refine ⟨s', hg, hd, fun k => ?_⟩
    rw [hd, foldMerge_lastWrite]

/-- Witness for C1: two concrete update calls on chat id 7, run against
both managers from concrete stores. -/
theorem update_session_fold_merge_witness :
    (∃ s', SessionManager.get_session
        (SessionManager.run_updates mongoStore0 7 callsAB) 7 = some s' ∧
      s'.data = foldMerge mongoSession0.data (callsAB.map (fun c => c.2.1)) ∧
      ∀ k, s'.data k =
        override (mongoSession0.data k) (lastWrite (callsAB.map (fun c => c.2.1)) k)) ∧
    (∃ s', MemorySessionManager.get_session
        (MemorySessionManager.run_updates memStore0 7 callsAB) 7 = some s' ∧
      s'.data = foldMerge memSession0.data (callsAB.map (fun c => c.2.1)) ∧
      ∀ k, s'.data k =
        override (memSession0.data k) (lastWrite (callsAB.map (fun c => c.2.1)) k)) :=
  ⟨(update_session_fold_merge 7 callsAB).1 mongoStore0 mongoSession0 rfl,
   (update_session_fold_merge 7 callsAB).2 memStore0 memSession0 rfl⟩

/-- Counterexample to C2 as stated: a session whose expiry time 3600
has passed (the clock reads 4000) is still returned by
`SessionManager.get_session`, which performs no expiry check. -/
theorem get_session_ignores_expiry_counterexample :
    expiredSession.expires_at < 4000 ∧
    SessionManager.get_session expiredStore 1 = some expiredSession ∧
    SessionManager.get_session expiredStore 1 ≠ none := by
  have h2 : SessionManager.get_session expiredStore 1 = some expiredSession := rfl
  exact ⟨by decide, h2, by rw [h2]; simp⟩

/-- Claim C2 (amended): `get_session` performs no expiry check and
returns whatever is stored; an expired session is removed by
`cleanup_expired_sessions`, after which `get_session` returns absent,
and it stays absent under any further sweep — the session is never
resurrected. -/
theorem session_expiry_sweep_spec :
    (∀ (st : SessionManager.Store) (cid : Int),
      SessionManager.get_session st cid = st cid) ∧
    (∀ (st : SessionManager.Store) (cid : Int) (s : SessionManager.Session)
        (now now' : Nat), st cid = some s → s.expires_at < now →
      SessionManager.get_session
        (SessionManager.cleanup_expired_sessions st now) cid = none ∧
      SessionManager.get_session
        (SessionManager.cleanup_expired_sessions
          (SessionManager.cleanup_expired_sessions st now) now') cid = none) := by
  refine ⟨fun st cid => rfl, ?_⟩
  intro st cid s now now' h hlt
  have h1 : SessionManager.cleanup_expired_sessions st now cid = none := by
    unfold SessionManager.cleanup_expired_sessions
    rw [h]
    simp [hlt]
  have habs : ∀ (st2 : SessionManager.Store) (t : Nat), st2 cid = none →
      SessionManager.cleanup_expired_sessions st2 t cid = none := by
    intro st2 t h2
    unfold SessionManager.cleanup_expired_sessions
    rw [h2]
  exact ⟨h1, habs _ now' h1⟩

/-- Witness for C2 (amended): the concrete expired store, swept at time
4000 and again at time 5000. -/
theorem session_expiry_sweep_witness :
    SessionManager.get_session
      (SessionManager.cleanup_expired_sessions expiredStore 4000) 1 = none ∧
    SessionManager.get_session
      (SessionManager.cleanup_expired_sessions
        (SessionManager.cleanup_expired_sessions expiredStore 4000) 5000) 1 = none :=
  session_expiry_sweep_spec.2 expiredStore 1 expiredSession 4000 5000 rfl (by decide)

/-- Claim C3: merging fewer than two sources raises the insufficient
input error (the `ValueError` raised before any file is touched);
merging `[A, B]` where `B` does not exist raises the wrapped
file-not-found error, leaves the file at `A` untouched on disk, and
does not write the output path. -/
theorem merge_pdfs_failure_spec :
    (∀ (fs : PDFProcessor.FS) (inputs : List String) (out : String),
      inputs.length < 2 →
      PDFProcessor.merge_pdfs fs inputs out =
        (Except.error (PDFProcessor.PyError.valueError "Need at least 2 PDFs to merge"), fs)) ∧
    (∀ (fs : PDFProcessor.FS) (A B out : String) (pagesA : List Nat),
      fs A = some pagesA → fs B = none →
      PDFProcessor.merge_pdfs fs [A, B] out =
        (Except.error (PDFProcessor.PyError.exception
          ("Merge failed: File not found: " ++ B)), fs) ∧
      (PDFProcessor.merge_pdfs fs [A, B] out).2 A = some pagesA ∧
      (PDFProcessor.merge_pdfs fs [A, B] out).2 out = fs out) := by
  constructor
  · intro fs inputs out h
    unfold PDFProcessor.merge_pdfs
    rw [if_pos h]
  · intro fs A B out pagesA hA hB
    have hm : PDFProcessor.merge_pdfs fs [A, B] out =
        (Except.error (PDFProcessor.PyError.exception
          ("Merge failed: File not found: " ++ B)), fs) := by
      simp [PDFProcessor.merge_pdfs, PDFProcessor.findMissing, hA, hB]
    exact ⟨hm, by rw [hm]; exact hA, by rw [hm]⟩

/-- Witness for C3: the concrete directory `fsA` (one two-page PDF at
`a.pdf`, nothing at `b.pdf`). -/
theorem merge_pdfs_failure_witness :
    PDFProcessor.merge_pdfs fsA ["a.pdf"] "out.pdf" =
      (Except.error (PDFProcessor.PyError.valueError "Need at least 2 PDFs to merge"), fsA) ∧
    PDFProcessor.merge_pdfs fsA ["a.pdf", "b.pdf"] "out.pdf" =
      (Except.error (PDFProcessor.PyError.exception
        ("Merge failed: File not found: " ++ "b.pdf")), fsA) ∧
    (PDFProcessor.merge_pdfs fsA ["a.pdf", "b.pdf"] "out.pdf").2 "a.pdf" = some [0, 1] ∧
    (PDFProcessor.merge_pdfs fsA ["a.pdf", "b.pdf"] "out.pdf").2 "out.pdf" = none :=
  ⟨merge_pdfs_failure_spec.1 fsA ["a.pdf"] "out.pdf" (by decide),
   (merge_pdfs_failure_spec.2 fsA "a.pdf" "b.pdf" "out.pdf" [0, 1] rfl rfl).1,
   (merge_pdfs_failure_spec.2 fsA "a.pdf" "b.pdf" "out.pdf" [0, 1] rfl rfl).2.1,
   (merge_pdfs_failure_spec.2 fsA "a.pdf" "b.pdf" "out.pdf" [0, 1] rfl rfl).2.2⟩

/-- Counterexample to C4 as stated: in `bot.py`, the `/cancel` handler
does not delete the session — after cancelling a merge session that
holds one uploaded file, the session record is still present and still
holds the accumulated file reference. -/
theorem cancel_operation_counterexample :
    SessionManager.get_session (Bot.cancel_operation mergingStore 1 10) 1 ≠ none ∧
    SessionManager.get_session (Bot.cancel_operation mergingStore 1 10) 1 =
      some { chat_id := 1, state := BotState.WAITING, data := mergingSession.data,
             created_at := 0, updated_at := 10, expires_at := 3610 } ∧
    mergingSession.data "files" = some (Value.paths ["f1.pdf"]) := by
  have h2 : SessionManager.get_session (Bot.cancel_operation mergingStore 1 10) 1 =
      some { chat_id := 1, state := BotState.WAITING, data := mergingSession.data,
             created_at := 0, updated_at := 10, expires_at := 3610 } := rfl
  exact ⟨by rw [h2]; simp, h2, by decide⟩

/-- Claim C4 (amended): `/cancel` returns the conversation to the
waiting state in both variants, but only the `bot (12).py` variant
deletes the session; the `bot.py` handler resets the session state to
waiting through `update_session`, keeping the session record and all
its accumulated data (and does nothing to the store when no session
exists). -/
theorem cancel_operation_spec :
    (∀ (st : SessionManager.Store) (cid : Int) (now : Nat) (s : SessionManager.Session),
      SessionManager.get_session st cid = some s →
      ∃ s', SessionManager.get_session (Bot.cancel_operation st cid now) cid = some s' ∧
        s'.state = BotState.WAITING ∧ s'.data = s.data) ∧
    (∀ (st : SessionManager.Store) (cid : Int) (now : Nat),
      SessionManager.get_session st cid = none →
      Bot.cancel_operation st cid now = st) ∧
    (∀ (st : SessionManager.Store) (cid : Int),
      SessionManager.get_session (BotV12.cancel_operation st cid) cid = none) := by
  refine ⟨?_, ?_, ?_⟩
  · intro st cid now s h
    exact ⟨_, SessionManager.update_session_get_nodata st cid s (some BotState.WAITING) now h,
           rfl, rfl⟩
  · intro st cid now h
    have h' : st cid = none := h
    simp only [Bot.cancel_operation, SessionManager.update_session, h']
  · intro st cid
    simp [BotV12.cancel_operation, SessionManager.clear_session, SessionManager.get_session]

/-- Witness for C4 (amended): the concrete merge session under chat
id 1 is reset by the `bot.py` handler and deleted by the `bot (12).py`
handler; the empty store is untouched. -/
theorem cancel_operation_spec_witness :
    (∃ s', SessionManager.get_session (Bot.cancel_operation mergingStore 1 10) 1 = some s' ∧
      s'.state = BotState.WAITING ∧ s'.data = mergingSession.data) ∧
    Bot.cancel_operation SessionManager.Store.empty 2 0 = SessionManager.Store.empty ∧
    SessionManager.get_session (BotV12.cancel_operation mergingStore 1) 1 = none :=
  ⟨cancel_operation_spec.1 mergingStore 1 10 mergingSession rfl,
   cancel_operation_spec.2.1 SessionManager.Store.empty 2 0 rfl,
   cancel_operation_spec.2.2 mergingStore 1⟩

/-- Counterexample to C5 as stated: `update_session` does not create a
session when the chat id is absent — in both managers, updating an
empty store leaves the id absent. -/
theorem update_session_absent_counterexample :
    SessionManager.get_session
      (SessionManager.update_session SessionManager.Store.empty 1
        (some BotState.WAITING) (some patchA) 5) 1 = none ∧
    MemorySessionManager.get_session
      (MemorySessionManager.update_session MemorySessionManager.Store.empty 1
        (some BotState.WAITING) (some patchA) 5) 1 = none :=
  ⟨rfl, rfl⟩

/-- Claim C5 (amended): `update_session` is a no-op when the id is
absent (creation is the job of `create_session`, which upserts and sets
the expiry one hour after the creation time); when the id is present it
replaces the state only if a state argument is given, merges the data
patch shallowly, refreshes `updated_at`, and — in the MongoDB-backed
manager — sets `expires_at` to `updated_at` plus the one-hour TTL; the
in-memory fallback records no `expires_at` at all. -/
theorem update_session_upsert_spec :
    (∀ (st : SessionManager.Store) (cid : Int) (ov : Option String)
        (d : Option Dict) (now : Nat), st cid = none →
      SessionManager.update_session st cid ov d now = st) ∧
    (∀ (st : SessionManager.Store) (cid : Int) (s : SessionManager.Session)
        (ov : Option String) (d : Option Dict) (now : Nat),
      SessionManager.get_session st cid = some s →
      ∃ s', SessionManager.get_session
              (SessionManager.update_session st cid ov d now) cid = some s' ∧
        s'.state = ov.getD s.state ∧ s'.updated_at = now ∧
        s'.expires_at = s'.updated_at + 3600 ∧
        s'.data = (match d with | none => s.data | some p => dictMerge s.data p) ∧
        s'.created_at = s.created_at) ∧
    (∀ (st : MemorySessionManager.Store) (cid : Int) (s : MemorySessionManager.Session)
        (ov : Option String) (d : Option Dict) (now : Nat),
      MemorySessionManager.get_session st cid = some s →
      ∃ s', MemorySessionManager.get_session
              (MemorySessionManager.update_session st cid ov d now) cid = some s' ∧
        s'.state = ov.getD s.state ∧ s'.updated_at = now ∧
        s'.data = (match d with | none => s.data | some p => dictMerge s.data p)) ∧
    (∀ (st : SessionManager.Store) (cid : Int) (state : String)
        (d : Option Dict) (now : Nat),
      ∃ s', SessionManager.get_session
              (SessionManager.create_session st cid state d now) cid = some s' ∧
        s'.state = state ∧ s'.updated_at = now ∧
        s'.expires_at = s'.updated_at + 3600 ∧ s'.data = d.getD Dict.empty) := by
  refine ⟨?_, ?_, ?_, ?_⟩
  · intro st cid ov d now h
    simp only [SessionManager.update_session, h]
  · intro st cid s ov d now h
    cases d with
    | none =>
      exact ⟨_, SessionManager.update_session_get_nodata st cid s ov now h,
             rfl, rfl, rfl, rfl, rfl⟩
    | some p =>
      exact ⟨_, SessionManager.update_session_get st cid s ov p now h,
             rfl, rfl, rfl, rfl, rfl⟩
  · intro st cid s ov d now h
    cases d with
    | none =>
      exact ⟨_, MemorySessionManager.mem_update_session_get_nodata st cid s ov now h,
             rfl, rfl, rfl⟩
    | some p =>
      exact ⟨_, MemorySessionManager.mem_update_session_get st cid s ov p now h,
             rfl, rfl, rfl⟩
  · intro st cid state d now
    have hc : SessionManager.get_session
        (SessionManager.create_session st cid state d now) cid =
        some { chat_id := cid, state := state, data := d.getD Dict.empty,
               created_at := now, updated_at := now, expires_at := now + 3600 } := by
      unfold SessionManager.get_session SessionManager.create_session
      simp
    exact ⟨_, hc, rfl, rfl, rfl, rfl⟩

/-- Witness for C5 (amended): concrete calls on the empty store and on
the concrete merge store. -/
theorem update_session_upsert_witness :
    SessionManager.update_session SessionManager.Store.empty 3 none (some patchA) 9 =
      SessionManager.Store.empty ∧
    (∃ s', SessionManager.get_session
        (SessionManager.update_session mergingStore 1 none (some patchA) 9) 1 = some s' ∧
      s'.state = (none : Option String).getD mergingSession.state ∧ s'.updated_at = 9 ∧
      s'.expires_at = s'.updated_at + 3600 ∧
      s'.data = (match (some patchA : Option Dict) with
                 | none => mergingSession.data
                 | some p => dictMerge mergingSession.data p) ∧
      s'.created_at = mergingSession.created_at) ∧
    (∃ s', SessionManager.get_session
        (SessionManager.create_session SessionManager.Store.empty 2 BotState.WAITING none 11) 2 =
          some s' ∧
      s'.state = BotState.WAITING ∧ s'.updated_at = 11 ∧
      s'.expires_at = s'.updated_at + 3600 ∧ s'.data = (none : Option Dict).getD Dict.empty) :=
  ⟨update_session_upsert_spec.1 SessionManager.Store.empty 3 none (some patchA) 9 rfl,
   update_session_upsert_spec.2.1 mergingStore 1 mergingSession none (some patchA) 9 rfl,
   update_session_upsert_spec.2.2.2 SessionManager.Store.empty 2 BotState.WAITING none 11⟩

/-- Claim C6: opacity parsing returns the parsed number exactly when the
string parses and the value lies in the accepted range
`0.1 <= opacity <= 1.0`, and absent otherwise; in particular "0.05" is
absent, "0.1" gives 0.1, "1.0" gives 1.0, "1.1" is absent and "abc" is
absent. -/
theorem is_valid_opacity_spec :
    TextValidator.is_valid_opacity "0.05" = none ∧
    TextValidator.is_valid_opacity "0.1" = some (mkRat 1 10) ∧
    TextValidator.is_valid_opacity "1.0" = some 1 ∧
    TextValidator.is_valid_opacity "1.1" = none ∧
    TextValidator.is_valid_opacity "abc" = none ∧
    ∀ (s : String) (q : ℚ), TextValidator.is_valid_opacity s = some q ↔
      (pyFloat s = some q ∧ mkRat 1 10 ≤ q ∧ q ≤ 1) := by
  refine ⟨by decide, by decide, by decide, by decide, by decide, ?_⟩
  intro s q
  unfold TextValidator.is_valid_opacity
  cases h : pyFloat s with
  | none => simp
  | some v =>
    simp only []
    split_ifs with hc
    · constructor
      · intro he
        obtain rfl : v = q := Option.some.inj he
        exact ⟨rfl, hc.1, hc.2⟩
      · rintro ⟨he, _, _⟩
        exact he
    · constructor
      · intro he
        exact he.elim
      · rintro ⟨he, h1, h2⟩
        obtain rfl : v = q := Option.some.inj he
        exact absurd ⟨h1, h2⟩ hc

/-- Claim C7: the watermark font size is a step function of the text
length, monotonically non-increasing in length; length at most 10 gets
the largest tier 48, length over 30 the smallest tier 18, with tiers 36
and 24 in between, and every value lies between 18 and 48. -/
theorem watermark_font_size_spec :
    (∀ s t : String, s.length ≤ t.length →
      PDFProcessor.watermark_font_size t ≤ PDFProcessor.watermark_font_size s) ∧
    (∀ s : String, s.length ≤ 10 → PDFProcessor.watermark_font_size s = 48) ∧
    (∀ s : String, 10 < s.length → s.length ≤ 20 →
      PDFProcessor.watermark_font_size s = 36) ∧
    (∀ s : String, 20 < s.length → s.length ≤ 30 →
      PDFProcessor.watermark_font_size s = 24) ∧
    (∀ s : String, 30 < s.length → PDFProcessor.watermark_font_size s = 18) ∧
    (∀ s : String, 18 ≤ PDFProcessor.watermark_font_size s ∧
      PDFProcessor.watermark_font_size s ≤ 48) := by
  refine ⟨?_, ?_, ?_, ?_, ?_, ?_⟩
  · intro s t h
    unfold PDFProcessor.watermark_font_size
    split_ifs <;> omega
  all_goals
    intro s
    unfold PDFProcessor.watermark_font_size
    split_ifs <;> omega

/-- Witness for C7: a text of length 9 gets the largest tier 48 and a
text of length 25 gets the strictly smaller tier 24. -/
theorem watermark_font_size_witness :
    PDFProcessor.watermark_font_size "CONFIDENT" = 48 ∧
    PDFProcessor.watermark_font_size "CONFIDENTIAL DO NOT SHARE" = 24 ∧
    PDFProcessor.watermark_font_size "CONFIDENTIAL DO NOT SHARE" <
      PDFProcessor.watermark_font_size "CONFIDENT" := by
  have h1 := watermark_font_size_spec.2.1 "CONFIDENT" (by decide)
  have h2 := watermark_font_size_spec.2.2.2.1 "CONFIDENTIAL DO NOT SHARE"
    (by decide) (by decide)
  exact ⟨h1, h2, by rw [h1, h2]; decide⟩

theorem PDFProcessor.validate_pdf_true_iff (fs : RawFS) (p : String) :
    validate_pdf fs p = true ↔
      ∃ c n, fs p = some c ∧ c.parsed = some n ∧ 0 < n := by
  unfold validate_pdf
  cases hf : fs p with
  | none => simp
  | some c =>
    cases hp : c.parsed with
    | none => simp [hp]
    | some n =>
      simp only [hp, decide_eq_true_eq]
      constructor
      · intro hn
        exact ⟨c, n, rfl, hp, hn⟩
      · rintro ⟨c', n', hc', hp', hn'⟩
        obtain rfl : c = c' := Option.some.inj hc'
        obtain rfl : n = n' := by rw [hp] at hp'; exact Option.some.inj hp'
        exact hn'

/-- Claim C8: the document-validity check is a total boolean function
(the Python body catches every exception and returns False): it returns
true exactly when the path holds a file the PDF reader parses with at
least one page; it returns false when the file is missing; and — under
the reader contract that only files beginning with the `%PDF-`
signature parse — a file accepted by `validate_pdf` also passes the
signature check `validate_pdf_structure`. -/
theorem validate_pdf_spec :
    ∀ (fs : PDFProcessor.RawFS) (p : String),
      (PDFProcessor.validate_pdf fs p = true ↔
        ∃ c n, fs p = some c ∧ c.parsed = some n ∧ 0 < n) ∧
      (fs p = none → PDFProcessor.validate_pdf fs p = false) ∧
      ((∀ c, fs p = some c → c.parsed.isSome = true → c.startsWithSig = true) →
        PDFProcessor.validate_pdf fs p = true →
        FileValidator.validate_pdf_structure fs p = true) := by
  intro fs p
  refine ⟨PDFProcessor.validate_pdf_true_iff fs p, ?_, ?_⟩
  · intro hf
    unfold PDFProcessor.validate_pdf
    rw [hf]
  · intro hsig hv
    obtain ⟨c, n, hf, hp, _⟩ := (PDFProcessor.validate_pdf_true_iff fs p).1 hv
    unfold FileValidator.validate_pdf_structure
    rw [hf]
    exact hsig c hf (by rw [hp]; rfl)

/-- Witness for C8: the concrete directory `goodRawFS` — the missing
path is rejected, the well-formed three-page PDF is accepted and passes
the signature check. -/
theorem validate_pdf_witness :
    PDFProcessor.validate_pdf goodRawFS "missing.pdf" = false ∧
    PDFProcessor.validate_pdf goodRawFS "doc.pdf" = true ∧
    FileValidator.validate_pdf_structure goodRawFS "doc.pdf" = true :=
  ⟨(validate_pdf_spec goodRawFS "missing.pdf").2.1 rfl,
   by decide,
   (validate_pdf_spec goodRawFS "doc.pdf").2.2
     (fun c hc _ => by
       have h2 : (some { startsWithSig := true, parsed := some 3 } :
           Option PDFProcessor.RawFile) = some c := hc
       obtain rfl : ({ startsWithSig := true, parsed := some 3 } :
           PDFProcessor.RawFile) = c := Option.some.inj h2
       rfl)
     (by decide)⟩

/-- Claim C9: the file-size limit is inclusive at the boundary — a file
of exactly `MAX_FILE_SIZE` bytes passes `is_valid_size` and is not
rejected by the size guard of the upload handler; only strictly larger
files are rejected. -/
theorem file_size_boundary_spec :
    FileValidator.is_valid_size MAX_FILE_SIZE MAX_FILE_SIZE = true ∧
    Bot.size_rejected (some MAX_FILE_SIZE) = false ∧
    (∀ n : Nat, FileValidator.is_valid_size MAX_FILE_SIZE n = true ↔ n ≤ MAX_FILE_SIZE) ∧
    (∀ n : Nat, Bot.size_rejected (some n) = true ↔ MAX_FILE_SIZE < n) := by
  refine ⟨by decide, by decide, ?_, ?_⟩
  · intro n
    simp [FileValidator.is_valid_size]
  · intro n
    simp only [Bot.size_rejected, Bool.and_eq_true, decide_eq_true_eq]
    constructor
    · rintro ⟨_, h⟩
      exact h
    · intro h
      refine ⟨?_, h⟩
      have : 0 < MAX_FILE_SIZE := by decide
      omega

/-- Claim C10: for every non-empty text accepted while waiting for the
watermark text, the `bot.py` handler stores `text[:100]` under the
`watermark_text` key of the session data, so the stored value never
exceeds 100 characters. -/
theorem handle_watermark_text_spec :
    ∀ (st : SessionManager.Store) (cid : Int) (text : String)
      (s : SessionManager.Session) (now : Nat),
      SessionManager.get_session st cid = some s → text ≠ "" →
      ∃ s', SessionManager.get_session
              (Bot.handle_watermark_text st cid text s now) cid = some s' ∧
        s'.data "watermark_text" = some (Value.str (pySlice text 100)) ∧
        (pySlice text 100).length ≤ 100 := by
  intro st cid text s now h hne
  unfold Bot.handle_watermark_text
  rw [if_neg hne]
  have h' : st cid = some s := h
  have hu := SessionManager.update_session_get st cid s none
    (dictSet s.data "watermark_text" (Value.str (pySlice text 100))) now h'
  refine ⟨_, hu, ?_, ?_⟩
  · show dictMerge s.data
      (dictSet s.data "watermark_text" (Value.str (pySlice text 100))) "watermark_text" = _
    simp [dictMerge, dictSet, override]
  · show (String.mk (text.data.take 100)).length ≤ 100
    have : (String.mk (text.data.take 100)).length = (text.data.take 100).length := rfl
    rw [this, List.length_take]
    exact Nat.min_le_left _ _

/-- Witness for C10: the concrete watermark store at chat id 9 with the
text "Confidential". -/
theorem handle_watermark_text_witness :
    ∃ s', SessionManager.get_session
            (Bot.handle_watermark_text wmStore 9 "Confidential" wmSession 42) 9 = some s' ∧
      s'.data "watermark_text" = some (Value.str (pySlice "Confidential" 100)) ∧
      (pySlice "Confidential" 100).length ≤ 100 :=
  handle_watermark_text_spec wmStore 9 "Confidential" wmSession 42 rfl (by decide)
